import Mathlib

set_option maxRecDepth 8000

/-! Verification of the typed-slot drag-and-drop composition engine of
`src/app/ui/language.py`: the widget factory (`LanguageWidgetFactory.build`),
the per-widget `model()` derivation, the gap/slot fill/empty protocol, the
append-only list editors and read-only propagation. Widgets are embedded as a
pure inductive of their editable state; stateful methods become functions from
state to state, paired with a Bool recording whether a structural-change
notification (`_postScriptChangeEvent`) was emitted, and fallible methods
return `Except`/`Option`. -/

/-- Modelled from the spec: the AST model module (`app.models.language`) is not
under `src/`; constructors and field order follow spec section 3 and the
constructor applications visible in `src/app/ui/language.py` (e.g.
`VideoScene(title, comment, duration, pre_commands, post_commands, offset,
source)` at lines 281-289 and 369-377).  Python `str` is modelled as `String`.
The numeric payload of `NumberValue` is modelled as `Int`: the engine never
computes with it, it only stores it in the line edit and reads it back, and the
edit's validator keeps the text a valid number (spec sections 4.4 and 7).
`CommandSequence` and `Act` wrap ordered sequences, modelled as `List LC`. -/
inductive LC where
  | numberValue (value : Int)
  | add (op1 op2 : LC)
  | subtract (op1 op2 : LC)
  | multiply (op1 op2 : LC)
  | textValue (value : String)
  | videoValue (value : String)
  | getVariableExpression (name : String)
  | setVariableStatement (name : String) (value : LC)
  | commandSequence (commands : List LC)
  | textScene (title comment : String) (duration : LC)
      (preCommands postCommands : LC) (text : LC)
  | videoScene (title comment : String) (duration : LC)
      (preCommands postCommands : LC) (offset source : LC)
  | youtubeVideoGetTitle (video : LC)
  | youtubeVideoGetRelated (video : LC)
  | youtubeVideoCollectionRandom (videoCollection : LC)
  | act (scenes : List LC)
  | numberGap
  | textGap
  | videoGap
  | videoCollectionGap
deriving Repr

/-- Modelled from the spec: `isinstance(child, language.Gap)` (line 740); the
four gap sentinels are exactly the subclasses of `language.Gap` (spec
section 3). -/
def LC.isGap : LC → Bool
  | .numberGap | .textGap | .videoGap | .videoCollectionGap => true
  | _ => false

/-- The four slot flavors: `NumberGapWidget`, `TextGapWidget`,
`VideoGapWidget`, `VideoCollectionGapWidget` (lines 776-865). -/
inductive GapFlavor where
  | number
  | text
  | video
  | videoCollection
deriving DecidableEq, Repr

/-- States of the editable widgets of `src/app/ui/language.py`.  Each
constructor records the mutable state the source class holds: line-edit
text and read-only flags, combo-box current text, child slots, list-editor
element lists, and for the list editors also the vertical layout, encoded as a
list whose `none` entry is the trailing `ListGapWidget` and whose `some w`
entries are the element widgets (the fixed spacing/stretch entries of
`ActWidget`'s layout carry no widgets and are omitted).  A `gapW` holds its
`_child` (`none` when empty) and `_readOnly` flag. -/
inductive Widget where
  | numberValueW (text : Int) (readOnly : Bool)
  | textValueW (text : String) (readOnly : Bool)
  | videoValueW (text : String) (readOnly : Bool)
  | getW (nameText : String)
  | setW (nameText : String) (value : Widget)
  | numberOperatorW (operatorText : String) (operand1 operand2 : Widget)
  | commandSequenceW (commands : List Widget) (layout : List (Option Widget))
  | actW (scenes : List Widget) (layout : List (Option Widget))
  | textSceneW (commentText : String) (preCommands postCommands : Widget)
      (textSlot durationSlot : Widget)
  | videoSceneW (commentText : String) (preCommands postCommands : Widget)
      (sourceSlot durationSlot offsetSlot : Widget)
  | ytGetTitleW (video : Widget)
  | ytGetRelatedW (video : Widget)
  | ytCollectionRandomW (videoCollection : Widget)
  | gapW (flavor : GapFlavor) (child : Option Widget) (readOnly : Bool)
deriving Repr

/-- Errors raised while constructing widgets: `RuntimeError` for a component
class with no registered builder (line 81), `AssertionError` for
`NumberOperatorWidget`'s operator assertion (line 978), `TypeError` for
iterating a non-sequence where a command sequence is expected. -/
inductive BuildError where
  | unsupportedComponent
  | assertionError
  | typeError
deriving DecidableEq, Repr

/-- Errors raised by `model()`: the `KeyError` of `OPERATORS[operator]`
(line 1002) when the selected operator is not a key of `OPERATORS`. -/
inductive ModelError where
  | keyError
deriving DecidableEq, Repr

/-- The `RuntimeError` of `GapWidget.emptyGap` (line 720) when the gap is not
occupied. -/
inductive RTError where
  | gapNotOccupied
deriving DecidableEq, Repr

/-- `VARIABLE_NAMES` (line 482). -/
def VARIABLE_NAMES : List String :=
  ["item", "curr_video", "curr_duration", "curr_offset"]

/-- Current text of a variable-name combo box after
`setCurrentIndex(findText(name))` (lines 492-495, 525-528): the name itself
when it is among the items, otherwise index -1 and empty current text. -/
def comboText (n : String) : String :=
  if VARIABLE_NAMES.contains n then n else ""

/-- `NumberOperatorWidget.OPERATORS` (lines 965-969): note the source maps the
key "/" to `language.Multiply` and has no key "*". -/
def NumberOperatorWidget.OPERATORS : List (String × (LC → LC → LC)) :=
  [("+", LC.add), ("-", LC.subtract), ("/", LC.multiply)]

/-- `operator in self.OPERATORS.keys()` (line 978). -/
def NumberOperatorWidget.hasKey (s : String) : Bool :=
  (NumberOperatorWidget.OPERATORS.find? (fun p => p.1 == s)).isSome

/-- `self.OPERATORS[operator]` (line 1002), as an `Option`al lookup. -/
def NumberOperatorWidget.opLookup (s : String) : Option (LC → LC → LC) :=
  (NumberOperatorWidget.OPERATORS.find? (fun p => p.1 == s)).map (·.2)

/-- The items added to the operator combo box, in order (lines 985-987); the
box starts at index 0, showing "+". -/
def NumberOperatorWidget.operatorItems : List String := ["+", "-", "*"]

mutual

/-- `LanguageWidgetFactory.build` (lines 44-81) together with the constructors
of the widget classes it dispatches to.  Slot children are created through
`GapWidget.fillGap` called from `GapWidget.__init__` (line 670): a `Gap`
component leaves the slot empty, anything else is built recursively.
`NumberOperatorWidget.__init__` asserts its operator argument is a key of
`OPERATORS` (line 978) and never sets the combo box's current index, so the
selector of a freshly built widget always shows "+" (index 0).  A component
class absent from the builders dict raises `RuntimeError` (line 81); the gap
sentinel builders are commented out in the source (lines 58-60). -/
def LanguageWidgetFactory.build : LC → Except BuildError Widget
  | .numberValue v => .ok (.numberValueW v false)
  | .add a b =>
    if NumberOperatorWidget.hasKey "+" then do
      let c1 ← if a.isGap then pure none
               else Option.some <$> LanguageWidgetFactory.build a
      let c2 ← if b.isGap then pure none
               else Option.some <$> LanguageWidgetFactory.build b
      pure (.numberOperatorW "+" (.gapW .number c1 false) (.gapW .number c2 false))
    else .error .assertionError
  | .subtract a b =>
    if NumberOperatorWidget.hasKey "-" then do
      let c1 ← if a.isGap then pure none
               else Option.some <$> LanguageWidgetFactory.build a
      let c2 ← if b.isGap then pure none
               else Option.some <$> LanguageWidgetFactory.build b
      pure (.numberOperatorW "+" (.gapW .number c1 false) (.gapW .number c2 false))
    else .error .assertionError
  | .multiply a b =>
    if NumberOperatorWidget.hasKey "*" then do
      let c1 ← if a.isGap then pure none
               else Option.some <$> LanguageWidgetFactory.build a
      let c2 ← if b.isGap then pure none
               else Option.some <$> LanguageWidgetFactory.build b
      pure (.numberOperatorW "+" (.gapW .number c1 false) (.gapW .number c2 false))
    else .error .assertionError
  | .textValue s => .ok (.textValueW s false)
  | .videoValue s => .ok (.videoValueW s false)
  | .getVariableExpression n => .ok (.getW (comboText n))
  | .setVariableStatement n v => do
    let c ← if v.isGap then pure none
            else Option.some <$> LanguageWidgetFactory.build v
    pure (.setW (comboText n) (.gapW .number c false))
  | .commandSequence l => do
    let ws ← LanguageWidgetFactory.buildList l
    pure (.commandSequenceW ws (ws.map some ++ [none]))
  | .act l => do
    let ws ← LanguageWidgetFactory.buildList l
    pure (.actW ws (ws.map some ++ [none]))
  | .textScene t c dur pre post txt =>
    match pre, post with
    | .commandSequence lp, .commandSequence lq => do
      let pw ← LanguageWidgetFactory.buildList lp
      let qw ← LanguageWidgetFactory.buildList lq
      let tc ← if txt.isGap then pure none
               else Option.some <$> LanguageWidgetFactory.build txt
      let dc ← if dur.isGap then pure none
               else Option.some <$> LanguageWidgetFactory.build dur
      pure (.textSceneW (t ++ "\n" ++ c)
        (.commandSequenceW pw (pw.map some ++ [none]))
        (.commandSequenceW qw (qw.map some ++ [none]))
        (.gapW .text tc false) (.gapW .number dc false))
    | _, _ => .error .typeError
  | .videoScene t c dur pre post off src =>
    match pre, post with
    | .commandSequence lp, .commandSequence lq => do
      let pw ← LanguageWidgetFactory.buildList lp
      let qw ← LanguageWidgetFactory.buildList lq
      let sc ← if src.isGap then pure none
               else Option.some <$> LanguageWidgetFactory.build src
      let dc ← if dur.isGap then pure none
               else Option.some <$> LanguageWidgetFactory.build dur
      let oc ← if off.isGap then pure none
               else Option.some <$> LanguageWidgetFactory.build off
      pure (.videoSceneW (t ++ "\n" ++ c)
        (.commandSequenceW pw (pw.map some ++ [none]))
        (.commandSequenceW qw (qw.map some ++ [none]))
        (.gapW .video sc false) (.gapW .number dc false) (.gapW .number oc false))
    | _, _ => .error .typeError
  | .youtubeVideoGetTitle v => do
    let c ← if v.isGap then pure none
            else Option.some <$> LanguageWidgetFactory.build v
    pure (.ytGetTitleW (.gapW .video c false))
  | .youtubeVideoGetRelated v => do
    let c ← if v.isGap then pure none
            else Option.some <$> LanguageWidgetFactory.build v
    pure (.ytGetRelatedW (.gapW .video c false))
  | .youtubeVideoCollectionRandom v => do
    let c ← if v.isGap then pure none
            else Option.some <$> LanguageWidgetFactory.build v
    pure (.ytCollectionRandomW (.gapW .videoCollection c false))
  | .numberGap => .error .unsupportedComponent
  | .textGap => .error .unsupportedComponent
  | .videoGap => .error .unsupportedComponent
  | .videoCollectionGap => .error .unsupportedComponent

/-- Builds the element widgets of a list editor in order
(`CommandSequenceWidget.__init__` lines 453-454, `ActWidget.__init__`
lines 191-192). -/
def LanguageWidgetFactory.buildList : List LC → Except BuildError (List Widget)
  | [] => .ok []
  | c :: cs => do
    pure ((← LanguageWidgetFactory.build c) :: (← LanguageWidgetFactory.buildList cs))

end

/-- `before, sep, after = text.partition(chr(10))` taking the part before the
first newline (`SceneWidget.title`, lines 237-239). -/
def titleChars : List Char → List Char
  | [] => []
  | c :: cs => if c = '\n' then [] else c :: titleChars cs

/-- The part after the first newline, empty when there is none
(`SceneWidget.comment`, lines 241-243). -/
def commentChars : List Char → List Char
  | [] => []
  | c :: cs => if c = '\n' then cs else commentChars cs

/-- `SceneWidget.title` (lines 237-239). -/
def SceneWidget.title (s : String) : String := ⟨titleChars s.data⟩

/-- `SceneWidget.comment` (lines 241-243). -/
def SceneWidget.comment (s : String) : String := ⟨commentChars s.data⟩

/-- The sentinel an empty slot's `model()` returns, per flavor:
`NumberGapWidget.model` line 793, `TextGapWidget.model` line 815,
`VideoGapWidget.model` line 838, and `VideoCollectionGapWidget.model`
line 862, which returns `language.VideoGap()`, not a video-collection gap. -/
def GapWidget.gapSentinel : GapFlavor → LC
  | .number => .numberGap
  | .text => .textGap
  | .video => .videoGap
  | .videoCollection => .videoGap

mutual

/-- The `model()` methods of the widget classes (the reverse direction of the
factory).  Per class: `NumberValueWidget.model` line 604, `TextValueWidget`
line 577, `VideoValueWidget` line 639, `GetWidget` line 508, `SetWidget`
line 547, `NumberOperatorWidget` lines 997-1005 (`OPERATORS[operator]` raises
`KeyError` when the current text is not a key), `CommandSequenceWidget`
line 461, `ActWidget` line 209, `TextSceneWidget` lines 420-431,
`VideoSceneWidget` lines 365-377 whose sixth argument is `self.offset()`,
which reads `self._duration.model()` (lines 379-380), and the gap widgets,
which return the occupant's model when full and `GapWidget.gapSentinel`
otherwise. -/
def Widget.model : Widget → Except ModelError LC
  | .numberValueW t _ => .ok (.numberValue t)
  | .textValueW t _ => .ok (.textValue t)
  | .videoValueW t _ => .ok (.videoValue t)
  | .getW n => .ok (.getVariableExpression n)
  | .setW n v => do pure (.setVariableStatement n (← Widget.model v))
  | .numberOperatorW s g1 g2 =>
    match NumberOperatorWidget.opLookup s with
    | none => .error .keyError
    | some ctor => do pure (ctor (← Widget.model g1) (← Widget.model g2))
  | .commandSequenceW ws _ => do pure (.commandSequence (← Widget.modelList ws))
  | .actW ws _ => do pure (.act (← Widget.modelList ws))
  | .textSceneW ct pre post txt dur => do
    let d ← Widget.model dur
    let p ← Widget.model pre
    let q ← Widget.model post
    let tx ← Widget.model txt
    pure (.textScene (SceneWidget.title ct) (SceneWidget.comment ct) d p q tx)
  | .videoSceneW ct pre post src dur _off => do
    let d ← Widget.model dur
    let p ← Widget.model pre
    let q ← Widget.model post
    let o ← Widget.model dur
    let s ← Widget.model src
    pure (.videoScene (SceneWidget.title ct) (SceneWidget.comment ct) d p q o s)
  | .ytGetTitleW v => do pure (.youtubeVideoGetTitle (← Widget.model v))
  | .ytGetRelatedW v => do pure (.youtubeVideoGetRelated (← Widget.model v))
  | .ytCollectionRandomW v => do
    pure (.youtubeVideoCollectionRandom (← Widget.model v))
  | .gapW f child _ =>
    match child with
    | some w => Widget.model w
    | none => .ok (GapWidget.gapSentinel f)

/-- `map(lambda w: w.model(), ...)` over list-editor elements (lines 209
and 461). -/
def Widget.modelList : List Widget → Except ModelError (List LC)
  | [] => .ok []
  | w :: ws => do pure ((← Widget.model w) :: (← Widget.modelList ws))

end

/-- The `setReadOnly` methods.  `GapWidget.setReadOnly` (lines 764-768) sets
only the gap's own `_readOnly` flag and does not touch its child occupant.
`GetWidget.setReadOnly` (lines 510-515) is a no-op ("Can't make combo box read
only").  `SetWidget` (line 554), `NumberOperatorWidget` (lines 1012-1013) and
the three YouTube widgets forward to their nested slots; the value widgets
forward to their line edit.  `CommandSequenceWidget`, `ActWidget`,
`TextSceneWidget` and `VideoSceneWidget` define no `setReadOnly` method and
inherit none, so calling it there raises `AttributeError`, modelled as
`none`. -/
def Widget.setReadOnly : Widget → Bool → Option Widget
  | .numberValueW t _, ro => some (.numberValueW t ro)
  | .textValueW t _, ro => some (.textValueW t ro)
  | .videoValueW t _, ro => some (.videoValueW t ro)
  | .getW n, _ => some (.getW n)
  | .setW n v, ro => (Widget.setReadOnly v ro).map (fun v2 => .setW n v2)
  | .numberOperatorW s g1 g2, ro => do
    let h1 ← Widget.setReadOnly g1 ro
    let h2 ← Widget.setReadOnly g2 ro
    pure (.numberOperatorW s h1 h2)
  | .ytGetTitleW v, ro => (Widget.setReadOnly v ro).map (fun v2 => .ytGetTitleW v2)
  | .ytGetRelatedW v, ro => (Widget.setReadOnly v ro).map (fun v2 => .ytGetRelatedW v2)
  | .ytCollectionRandomW v, ro =>
    (Widget.setReadOnly v ro).map (fun v2 => .ytCollectionRandomW v2)
  | .gapW f c _, ro => some (.gapW f c ro)
  | .commandSequenceW _ _, _ => none
  | .actW _ _, _ => none
  | .textSceneW _ _ _ _ _, _ => none
  | .videoSceneW _ _ _ _ _ _, _ => none

/-- Modelled from the spec: membership in the model class `NumberExpression`
(`isinstance(component, language.NumberExpression)`, line 796).  The class
hierarchy lives in the `app.models.language` module, which is not under
`src/`; spec section 3 lists the value-producing expression categories, with
the gap sentinel of a family belonging to that family (sections 4.2 and 8),
and the scene widgets place the arithmetic nodes and `NumberValue` in number
slots while line 313 uses `YoutubeVideoGetTitle` as the text of a `TextScene`
(a `TextExpression`); `YoutubeVideoCollectionRandom` yields a single video and
`YoutubeVideoGetRelated` a collection (spec section 4.4). -/
def isNumberExpressionLC : LC → Bool
  | .numberValue _ | .add _ _ | .subtract _ _ | .multiply _ _ | .numberGap => true
  | _ => false

/-- Modelled from the spec: membership in `language.TextExpression`
(line 818); see `isNumberExpressionLC`. -/
def isTextExpressionLC : LC → Bool
  | .textValue _ | .youtubeVideoGetTitle _ | .textGap => true
  | _ => false

/-- Modelled from the spec: membership in `language.VideoExpression`
(line 841); see `isNumberExpressionLC`. -/
def isVideoExpressionLC : LC → Bool
  | .videoValue _ | .youtubeVideoCollectionRandom _ | .videoGap => true
  | _ => false

/-- Modelled from the spec: membership in `language.VideoCollectionExpression`
(line 865); see `isNumberExpressionLC`. -/
def isVideoCollectionExpressionLC : LC → Bool
  | .youtubeVideoGetRelated _ | .videoCollectionGap => true
  | _ => false

/-- `isAcceptable` of the four concrete gap widget classes (lines 795-796,
817-818, 840-841, 864-865): an `isinstance` check against the slot's accepted
category.  It reads no state and mutates nothing: in this embedding it is a
pure function of the flavor and the payload alone. -/
def GapWidget.isAcceptable (f : GapFlavor) (c : LC) : Bool :=
  match f with
  | .number => isNumberExpressionLC c
  | .text => isTextExpressionLC c
  | .video => isVideoExpressionLC c
  | .videoCollection => isVideoCollectionExpressionLC c

/-- The accept/ignore decision of `GapWidget.dragEnterEvent` (lines 685-696)
for a payload in the language-component MIME format: accepted iff the gap is
not read-only and the payload is acceptable. -/
def GapWidget.dragAccepts (f : GapFlavor) (readOnly : Bool) (c : LC) : Bool :=
  !readOnly && GapWidget.isAcceptable f c

/-- `GapWidget.isFull` (lines 747-752). -/
def GapWidget.isFull (child : Option Widget) : Bool := child.isSome

/-- `GapWidget.emptyGap` (lines 713-724): raises `RuntimeError` when the gap
is not occupied (no state change, no notification — the error return carries
neither); otherwise `_emptyGap` detaches the child and a structural-change
notification is posted afterwards.  The result pairs the new `_child` state
with whether `_postScriptChangeEvent` ran. -/
def GapWidget.emptyGap (child : Option Widget) :
    Except RTError (Option Widget × Bool) :=
  if GapWidget.isFull child then .ok (none, true) else .error .gapNotOccupied

/-- `GapWidget.fillGap` (lines 726-745): any present occupant is evicted by
`_emptyGap` first; a `Gap` component leaves the slot empty; otherwise the
factory builds the new occupant — if that raises, the exception propagates
with the occupant already evicted and the final `_postScriptChangeEvent`
never runs.  The result is the new `_child` state, whether the notification
ran, and the exception if one was raised. -/
def GapWidget.fillGap (_child : Option Widget) (c : LC) :
    Option Widget × Bool × Option BuildError :=
  if c.isGap then (none, true, none)
  else
    match LanguageWidgetFactory.build c with
    | .ok w => (some w, true, none)
    | .error e => (none, false, some e)

/-- `insertWidget(self._layout.indexOf(self._gap), widget)` (lines 230
and 479): the new element widget is inserted immediately before the trailing
append-gap entry, so the gap stays last. -/
def insertBeforeGap (layout : List (Option Widget)) (w : Widget) :
    List (Option Widget) :=
  match layout with
  | [] => [some w]
  | none :: rest => some w :: none :: rest
  | some x :: rest => some x :: insertBeforeGap rest w

/-- `CommandSequenceWidget.addCommand` (lines 463-471); `ActWidget.addScene`
(lines 214-222) is word-for-word the same operation on the scenes list.  The
factory builds the element (exceptions propagate), it is inserted before the
append gap and appended to the element list, and a structural-change
notification is posted. -/
def CommandSequenceWidget.addCommand (commands : List Widget)
    (layout : List (Option Widget)) (c : LC) :
    Except BuildError (List Widget × List (Option Widget) × Bool) :=
  match LanguageWidgetFactory.build c with
  | .error e => .error e
  | .ok w => .ok (commands ++ [w], insertBeforeGap layout w, true)

/-- N successive `addCommand`/`addScene` calls, counting the notifications
posted. -/
def CommandSequenceWidget.appendAll (commands : List Widget)
    (layout : List (Option Widget)) :
    List LC → Except BuildError (List Widget × List (Option Widget) × Nat)
  | [] => .ok (commands, layout, 0)
  | c :: cs =>
    match CommandSequenceWidget.addCommand commands layout c with
    | .error e => .error e
    | .ok (ws, ly, _) =>
      match CommandSequenceWidget.appendAll ws ly cs with
      | .error e => .error e
      | .ok (ws2, ly2, n) => .ok (ws2, ly2, n + 1)

/-- The category-acceptance table as the spec words it (sections 4.2 and 8):
a payload is acceptable to a slot iff the payload's category is the slot's
accepted category, and the gap sentinel of the matching family is always
acceptable.  Written as an explicit flavor-by-constructor table, to be
compared with the source's `isinstance`-based `GapWidget.isAcceptable`. -/
def specAccepts (f : GapFlavor) (c : LC) : Bool :=
  match c with
  | .numberValue _ | .add _ _ | .subtract _ _ | .multiply _ _ => f == .number
  | .textValue _ | .youtubeVideoGetTitle _ => f == .text
  | .videoValue _ | .youtubeVideoCollectionRandom _ => f == .video
  | .youtubeVideoGetRelated _ => f == .videoCollection
  | .numberGap => f == .number
  | .textGap => f == .text
  | .videoGap => f == .video
  | .videoCollectionGap => f == .videoCollection
  | .getVariableExpression _ | .setVariableStatement _ _ => false
  | .commandSequence _ | .act _ => false
  | .textScene _ _ _ _ _ _ | .videoScene _ _ _ _ _ _ _ => false

/-- The round trip of spec section 8: build a widget from a component and
derive the component back, `none` when either direction raises. -/
def roundTrip (x : LC) : Option LC :=
  match LanguageWidgetFactory.build x with
  | .error _ => none
  | .ok w =>
    match Widget.model w with
    | .error _ => none
    | .ok m => some m

theorem except_bind_ok {α β ε : Type} (a : α) (f : α → Except ε β) :
    (Except.ok a >>= f) = f a := rfl

theorem except_bind_error {α β ε : Type} (e : ε) (f : α → Except ε β) :
    ((Except.error e : Except ε α) >>= f) = .error e := rfl

theorem except_pure {α ε : Type} (a : α) :
    (pure a : Except ε α) = .ok a := rfl

theorem build_ok_not_gap (c : LC) (w : Widget)
    (h : LanguageWidgetFactory.build c = .ok w) : c.isGap = false := by
  cases c <;> first
    | rfl
    | simp [LanguageWidgetFactory.build] at h

/-- C8 (confirmed): for every slot flavor and every component, the source's
`isinstance`-based `isAcceptable` coincides with the spec's acceptance table:
true iff the payload's category matches the slot's accepted category, with the
gap sentinel of the matching family always acceptable; the predicate is a pure
function of slot flavor and payload, so it cannot mutate the slot. -/
theorem isAcceptable_matches_category (f : GapFlavor) (c : LC) :
    GapWidget.isAcceptable f c = specAccepts f c := by
  cases f <;> cases c <;> rfl

/-- C2 (code_bug): `model()` of an empty number, text and video slot returns
that slot's own gap sentinel, but an empty video-collection slot returns
`VideoGap` (line 862), which is not a `VideoCollectionExpression`,
contradicting the method's declared return type (line 857). -/
theorem empty_slot_model_sentinels (r : Bool) :
    Widget.model (.gapW .number none r) = .ok .numberGap ∧
    Widget.model (.gapW .text none r) = .ok .textGap ∧
    Widget.model (.gapW .video none r) = .ok .videoGap ∧
    Widget.model (.gapW .videoCollection none r) = .ok .videoGap ∧
    isVideoCollectionExpressionLC .videoGap = false :=
  ⟨rfl, rfl, rfl, rfl, rfl⟩

/-- C2 witness: the sentinel facts at a concrete read-only flag. -/
theorem empty_slot_model_sentinels_witness :
    Widget.model (.gapW .videoCollection none false) = .ok .videoGap ∧
    isVideoCollectionExpressionLC .videoGap = false :=
  ⟨(empty_slot_model_sentinels false).2.2.2.1,
   (empty_slot_model_sentinels false).2.2.2.2⟩

/-- C10 (confirmed): the keys of `OPERATORS` are exactly "+", "-" and "/",
the `Multiply` builder passes "*" so `build` on any `Multiply` node fails the
constructor's assertion, and `model()` of an operator widget whose selector
shows "*" (one of the combo box's offered items) raises `KeyError`. -/
theorem multiply_builder_and_star_selector_fail :
    NumberOperatorWidget.OPERATORS.map (fun p => p.1) = ["+", "-", "/"] ∧
    (∀ a b : LC,
      LanguageWidgetFactory.build (.multiply a b) = .error .assertionError) ∧
    (∀ g1 g2 : Widget,
      Widget.model (.numberOperatorW "*" g1 g2) = .error .keyError) ∧
    "*" ∈ NumberOperatorWidget.operatorItems :=
  ⟨rfl, fun _ _ => rfl, fun _ _ => rfl, by decide⟩

/-- C7 (confirmed): `emptyGap` on an already-empty slot raises the
slot-not-occupied `RuntimeError` — the error return carries no new state and
no notification — while on a full slot it evicts the occupant, leaving the
slot not full, and the structural-change notification runs after the
eviction. -/
theorem emptyGap_spec (w : Widget) :
    GapWidget.emptyGap none = .error .gapNotOccupied ∧
    GapWidget.emptyGap (some w) = .ok (none, true) ∧
    GapWidget.isFull (none : Option Widget) = false ∧
    GapWidget.isFull (some w) = true :=
  ⟨rfl, rfl, rfl, rfl⟩

/-- C3 counterexample: a number slot occupied by an arithmetic operator
widget.  `setReadOnly(true)` on the slot returns it with its occupant bitwise
unchanged — both operand slots inside the occupant still have `_readOnly`
false — and such a non-read-only nested slot still accepts a number payload
drop, so the read-only flag is not propagated to the occupant and the subtree
does not reject all drops. -/
theorem slot_setReadOnly_propagation_fails :
    Widget.setReadOnly
      (.gapW .number
        (some (.numberOperatorW "+" (.gapW .number none false)
          (.gapW .number none false))) false) true
      = some (.gapW .number
          (some (.numberOperatorW "+" (.gapW .number none false)
            (.gapW .number none false))) true) ∧
    GapWidget.dragAccepts .number false (.numberValue 1) = true :=
  ⟨rfl, rfl⟩

/-- C3 (corrected): `setReadOnly(true)` on a slot sets only the slot's own
read-only flag — the occupant, and hence every slot nested inside it, is left
untouched — and the slot itself then rejects every drop regardless of payload
category. -/
theorem slot_setReadOnly_shallow (f : GapFlavor) (child : Option Widget)
    (r : Bool) (c : LC) :
    Widget.setReadOnly (.gapW f child r) true = some (.gapW f child true) ∧
    GapWidget.dragAccepts f true c = false :=
  ⟨rfl, rfl⟩

/-- C1 counterexample: the round trip fails on the code.  `build` of a
`Subtract` never initializes the operator combo box, so the rebuilt widget
derives an `Add`; `build` of a `VideoScene` derives a scene whose offset is
the duration slot's value, not the original offset; and `build` of a
`Multiply` raises. -/
theorem factory_model_round_trip_fails :
    roundTrip (.subtract (.numberValue 2) (.numberValue 3)) =
      some (.add (.numberValue 2) (.numberValue 3)) ∧
    LC.add (.numberValue 2) (.numberValue 3) ≠
      LC.subtract (.numberValue 2) (.numberValue 3) ∧
    roundTrip (.videoScene "T" "c" (.numberValue 10) (.commandSequence [])
        (.commandSequence []) (.numberValue 0) (.videoValue "v")) =
      some (.videoScene "T" "c" (.numberValue 10) (.commandSequence [])
        (.commandSequence []) (.numberValue 10) (.videoValue "v")) ∧
    LC.videoScene "T" "c" (.numberValue 10) (.commandSequence [])
        (.commandSequence []) (.numberValue 10) (.videoValue "v") ≠
      LC.videoScene "T" "c" (.numberValue 10) (.commandSequence [])
        (.commandSequence []) (.numberValue 0) (.videoValue "v") ∧
    roundTrip (.multiply (.numberValue 1) (.numberValue 1)) = none := by
  refine ⟨rfl, by simp, rfl, by simp, rfl⟩

/-- C1 (corrected): `model(build(x)) = x` holds for representative values of
every component category with a registered builder except `Subtract` (the
operator selector is never initialized, so the rebuilt widget derives `Add`),
`Multiply` (the builder fails the operator assertion), and `VideoScene` (the
derived offset is read from the duration slot). -/
theorem factory_model_round_trip_representatives :
    roundTrip (.numberValue 10) = some (.numberValue 10) ∧
    roundTrip (.add (.numberValue 2) (.numberValue 3)) =
      some (.add (.numberValue 2) (.numberValue 3)) ∧
    roundTrip (.textValue "hello") = some (.textValue "hello") ∧
    roundTrip (.videoValue "9bZkp7q19f0") = some (.videoValue "9bZkp7q19f0") ∧
    roundTrip (.getVariableExpression "item") =
      some (.getVariableExpression "item") ∧
    roundTrip (.setVariableStatement "curr_video" (.numberValue 1)) =
      some (.setVariableStatement "curr_video" (.numberValue 1)) ∧
    roundTrip (.commandSequence [.setVariableStatement "item" (.numberValue 1),
        .getVariableExpression "item"]) =
      some (.commandSequence [.setVariableStatement "item" (.numberValue 1),
        .getVariableExpression "item"]) ∧
    roundTrip (.textScene "Title" "A comment" (.numberValue 2)
        (.commandSequence []) (.commandSequence [])
        (.youtubeVideoGetTitle (.videoValue "v"))) =
      some (.textScene "Title" "A comment" (.numberValue 2)
        (.commandSequence []) (.commandSequence [])
        (.youtubeVideoGetTitle (.videoValue "v"))) ∧
    roundTrip (.youtubeVideoGetTitle (.videoValue "v")) =
      some (.youtubeVideoGetTitle (.videoValue "v")) ∧
    roundTrip (.youtubeVideoGetRelated (.videoValue "v")) =
      some (.youtubeVideoGetRelated (.videoValue "v")) ∧
    roundTrip (.youtubeVideoCollectionRandom
        (.youtubeVideoGetRelated (.videoValue "v"))) =
      some (.youtubeVideoCollectionRandom
        (.youtubeVideoGetRelated (.videoValue "v"))) ∧
    roundTrip (.act [.textScene "Title" "A comment" (.numberValue 2)
        (.commandSequence []) (.commandSequence []) (.textGap)]) =
      some (.act [.textScene "Title" "A comment" (.numberValue 2)
        (.commandSequence []) (.commandSequence []) (.textGap)]) :=
  ⟨rfl, rfl, rfl, rfl, rfl, rfl, rfl, rfl, rfl, rfl, rfl, rfl⟩

/-- C4 counterexample: "*" is one of the operator selector's offered choices
(it is the third combo box item), yet `model()` with "*" selected does not
return a constructor application — it raises `KeyError`, because the
`OPERATORS` table has no "*" key. -/
theorem operator_model_star_keyerror :
    "*" ∈ NumberOperatorWidget.operatorItems ∧
    Widget.model (.numberOperatorW "*" (.gapW .number none false)
      (.gapW .number none false)) = .error .keyError ∧
    NumberOperatorWidget.opLookup "*" = none :=
  ⟨by decide, rfl, rfl⟩

/-- C4 (corrected): whenever the operator selector's current text has a
registered constructor in `OPERATORS` (so for the offered choices "+" and "-",
but not "*"), `model()` returns that constructor applied to the two operand
slots' derived values. -/
theorem operator_model_applies_registered_constructor (s : String)
    (ctor : LC → LC → LC) (g1 g2 : Widget) (m1 m2 : LC)
    (hc : NumberOperatorWidget.opLookup s = some ctor)
    (h1 : Widget.model g1 = .ok m1) (h2 : Widget.model g2 = .ok m2) :
    Widget.model (.numberOperatorW s g1 g2) = .ok (ctor m1 m2) := by
  simp [Widget.model, hc, h1, h2, except_bind_ok, except_pure]

/-- C4 witness, scenario D of the spec: operands `NumberValue(2)` and
`NumberValue(3)` with "+" selected derive `Add(NumberValue(2),
NumberValue(3))`. -/
theorem operator_model_scenario_d :
    Widget.model (.numberOperatorW "+"
      (.gapW .number (some (.numberValueW 2 false)) false)
      (.gapW .number (some (.numberValueW 3 false)) false)) =
    .ok (.add (.numberValue 2) (.numberValue 3)) :=
  operator_model_applies_registered_constructor "+" LC.add _ _
    (.numberValue 2) (.numberValue 3) rfl rfl rfl

/-- C5 counterexample: filling a full slot with a `Multiply` node — an
acceptable number expression — evicts the occupant, but the factory build
then raises the operator assertion, so no occupant is installed and no
structural-change notification is emitted, contrary to the claim that every
fill ends by emitting one. -/
theorem fillGap_multiply_no_notification :
    GapWidget.fillGap (some (.numberValueW 7 false))
      (.multiply (.numberValue 1) (.numberValue 2)) =
      (none, false, some .assertionError) ∧
    GapWidget.isAcceptable .number
      (.multiply (.numberValue 1) (.numberValue 2)) = true :=
  ⟨rfl, rfl⟩

/-- C5 (corrected): `fillGap` discards any present occupant — its result
never depends on the previous child, so `model()` afterwards can never
reflect the displaced value.  A `Gap` component leaves the slot empty and
the notification is emitted even on an empty-to-empty transition; a
component the registry can build becomes the new occupant, whose derived
value is the slot's new `model()`, and the notification is emitted.  (When
the registry build raises — e.g. on a `Multiply` — the occupant is still
evicted but no notification is emitted.) -/
theorem fillGap_spec (child1 child2 : Option Widget) (c : LC) :
    GapWidget.fillGap child1 c = GapWidget.fillGap child2 c ∧
    (c.isGap = true → GapWidget.fillGap child1 c = (none, true, none)) ∧
    (∀ w, LanguageWidgetFactory.build c = .ok w →
      GapWidget.fillGap child1 c = (some w, true, none) ∧
      ∀ f r, Widget.model (.gapW f (some w) r) = Widget.model w) := by
  refine ⟨rfl, fun hg => ?_, fun w hw => ⟨?_, fun f r => rfl⟩⟩
  · simp [GapWidget.fillGap, hg]
  · simp [GapWidget.fillGap, build_ok_not_gap c w hw, hw]

/-- C5 witness: filling a slot occupied by `NumberValueWidget(7)` with
`NumberValue(5)` installs a fresh occupant and notifies; filling it with a
`NumberGap` empties it and notifies. -/
theorem fillGap_spec_witness :
    GapWidget.fillGap (some (.numberValueW 7 false)) (.numberValue 5) =
      (some (.numberValueW 5 false), true, none) ∧
    GapWidget.fillGap (some (.numberValueW 7 false)) .numberGap =
      (none, true, none) :=
  ⟨((fillGap_spec (some (.numberValueW 7 false)) none
      (.numberValue 5)).2.2 (.numberValueW 5 false) rfl).1,
   (fillGap_spec (some (.numberValueW 7 false)) none .numberGap).2.1 rfl⟩

/-- C9 (confirmed): `VideoSceneWidget.model()` builds a `VideoScene` whose
offset field is the duration slot's derived value — `offset()` reads
`self._duration` — and the offset slot is universally quantified here and
absent from the result, so its contents never appear in the derived AST. -/
theorem videoScene_offset_reads_duration (ct : String)
    (pre post src dur off : Widget) (d p q s : LC)
    (hd : Widget.model dur = .ok d) (hp : Widget.model pre = .ok p)
    (hq : Widget.model post = .ok q) (hs : Widget.model src = .ok s) :
    Widget.model (.videoSceneW ct pre post src dur off) =
      .ok (.videoScene (SceneWidget.title ct) (SceneWidget.comment ct)
        d p q d s) := by
  simp [Widget.model, hd, hp, hq, hs, except_bind_ok, except_pure]

/-- C9 witness: a video scene whose duration slot holds `NumberValue(10)` and
whose offset slot holds `NumberValue(0)` derives offset `NumberValue(10)`. -/
theorem videoScene_offset_reads_duration_witness :
    Widget.model (.videoSceneW "T\nc" (.commandSequenceW [] [none])
      (.commandSequenceW [] [none]) (.gapW .video none false)
      (.gapW .number (some (.numberValueW 10 false)) false)
      (.gapW .number (some (.numberValueW 0 false)) false)) =
    .ok (.videoScene "T" "c" (.numberValue 10) (.commandSequence [])
      (.commandSequence []) (.numberValue 10) .videoGap) :=
  videoScene_offset_reads_duration "T\nc" (.commandSequenceW [] [none])
    (.commandSequenceW [] [none]) (.gapW .video none false)
    (.gapW .number (some (.numberValueW 10 false)) false)
    (.gapW .number (some (.numberValueW 0 false)) false)
    (.numberValue 10) (.commandSequence []) (.commandSequence [])
    .videoGap rfl rfl rfl rfl

theorem insertBeforeGap_gapLast (l : List Widget) (w : Widget) :
    insertBeforeGap (l.map some ++ [none]) w = (l ++ [w]).map some ++ [none] := by
  induction l with
  | nil => rfl
  | cons x xs ih => simpa [insertBeforeGap] using ih

theorem buildList_length (cs : List LC) :
    ∀ ws, LanguageWidgetFactory.buildList cs = .ok ws → ws.length = cs.length := by
  induction cs with
  | nil =>
    intro ws h
    simp [LanguageWidgetFactory.buildList] at h
    simp [← h]
  | cons c cs ih =>
    intro ws h
    rw [LanguageWidgetFactory.buildList] at h
    cases hb : LanguageWidgetFactory.build c with
    | error e => simp [hb, except_bind_error] at h
    | ok w =>
      cases hl : LanguageWidgetFactory.buildList cs with
      | error e => simp [hb, hl, except_bind_ok, except_bind_error] at h
      | ok ws2 =>
        simp [hb, hl, except_bind_ok, except_pure] at h
        simp [← h, ih ws2 hl]

theorem appendAll_gen (cs : List LC) :
    ∀ (ws0 ws : List Widget), LanguageWidgetFactory.buildList cs = .ok ws →
    CommandSequenceWidget.appendAll ws0 (ws0.map some ++ [none]) cs =
      .ok (ws0 ++ ws, (ws0 ++ ws).map some ++ [none], cs.length) := by
  induction cs with
  | nil =>
    intro ws0 ws h
    simp [LanguageWidgetFactory.buildList] at h
    simp [CommandSequenceWidget.appendAll, ← h]
  | cons c cs ih =>
    intro ws0 ws h
    rw [LanguageWidgetFactory.buildList] at h
    cases hb : LanguageWidgetFactory.build c with
    | error e => simp [hb, except_bind_error] at h
    | ok w =>
      cases hl : LanguageWidgetFactory.buildList cs with
      | error e => simp [hb, hl, except_bind_ok, except_bind_error] at h
      | ok ws2 =>
        simp [hb, hl, except_bind_ok, except_pure] at h
        subst h
        have h2 := ih (ws0 ++ [w]) ws2 hl
        simp only [CommandSequenceWidget.appendAll,
          CommandSequenceWidget.addCommand, hb, insertBeforeGap_gapLast, h2]
        simp

/-- C6 (confirmed): starting from a freshly constructed list editor (element
list empty, layout holding only the append gap), N successful appends — this
embeds both `CommandSequenceWidget.addCommand` and `ActWidget.addScene` —
produce exactly the N built element widgets in call order, the append gap
stays last in the layout, one structural-change notification is posted per
append, and `model()` returns the elements' derived values in that order
(appending is the only mutating operation either list editor defines, so
nothing removes or reorders elements). -/
theorem list_editor_append_spec (cs : List LC) (ws : List Widget)
    (h : LanguageWidgetFactory.buildList cs = .ok ws) :
    CommandSequenceWidget.appendAll [] [none] cs =
      .ok (ws, ws.map some ++ [none], cs.length) ∧
    ws.length = cs.length ∧
    Widget.model (.commandSequenceW ws (ws.map some ++ [none])) =
      (Widget.modelList ws).map LC.commandSequence ∧
    Widget.model (.actW ws (ws.map some ++ [none])) =
      (Widget.modelList ws).map LC.act := by
  refine ⟨?_, buildList_length cs ws h, ?_, ?_⟩
  · simpa using appendAll_gen cs [] ws h
  · cases hm : Widget.modelList ws <;>
      simp [Widget.model, hm, except_bind_error, except_bind_ok, except_pure,
        Except.map]
  · cases hm : Widget.modelList ws <;>
      simp [Widget.model, hm, except_bind_error, except_bind_ok, except_pure,
        Except.map]

/-- C6 witness: appending a Set statement and then a Get statement to a fresh
command-sequence editor yields those two widgets in order, the append gap
last, and two notifications. -/
theorem list_editor_append_witness :
    CommandSequenceWidget.appendAll [] [none]
      [.setVariableStatement "item" (.numberValue 1),
       .getVariableExpression "item"] =
    .ok ([.setW "item" (.gapW .number (some (.numberValueW 1 false)) false),
          .getW "item"],
         [some (.setW "item" (.gapW .number (some (.numberValueW 1 false)) false)),
          some (.getW "item"), none], 2) :=
  (list_editor_append_spec
    [.setVariableStatement "item" (.numberValue 1), .getVariableExpression "item"]
    [.setW "item" (.gapW .number (some (.numberValueW 1 false)) false),
     .getW "item"] rfl).1
